import Mathlib

/-!
Verification of the VM state-mirror slice (src/src/store/vmSlice.ts).

The slice is a pure Redux reducer collection over an immutable state value.
We embed the state record, each reducer as a pure function from state (and
payload) to state, and each selector as a pure function over the state.

JavaScript `Record<K, V>` objects are embedded as association lists
`List (K × V)` with first-match lookup; `{...m, [k]: v}` (replace or add a
key) is `recSet`, and `delete m[k]` is `recErase`.  A JavaScript expression
that throws a TypeError (reading a property of `undefined`) is embedded as
`Except.error ()`.

Payload types imported from `../vm` and `dirplayer-js-api` are not part of
the source tree; they are embedded as opaque tokens (`Nat`/`String`) or as
records with the fields this slice reads plus an opaque `extra` field that
stands for all fields this slice never touches, so that JavaScript object
spread (which preserves unread fields) is modelled faithfully.
-/

namespace VMSlice

/-- Opaque identifier for a VM-side value (treated as an unstructured token). -/
abbrev DatumRef := Nat

/-- Opaque script-instance identifier. -/
abbrev ScriptInstanceId := Nat

/-- Opaque materialized value payload. -/
abbrev JsBridgeDatum := Nat

/-- Opaque score/timeline description (wholesale-replaced, never inspected). -/
abbrev ScoreSnapshot := Nat

/-- Opaque call-stack frame (never inspected by this slice). -/
abbrev IVMScope := Nat

/-- Opaque timer handle (NodeJS.Timer; equality-only token). -/
abbrev TimerHandle := Nat

/-- Opaque detailed member snapshot payload. -/
abbrev MemberSnapshot := Nat

/-- Breakpoint record from dirplayer-js-api; the slice only reads
`script_name`, the opaque `extra` stands for its remaining fields. -/
structure JsBridgeBreakpoint where
  script_name : String
  extra : Nat
deriving DecidableEq, Repr

/-- Cast-member identifier (castNumber, memberNumber). -/
structure ICastMemberIdentifier where
  castNumber : Nat
  memberNumber : Nat
deriving DecidableEq, Repr

/-- One entry of a cast snapshot's member map.  The slice writes the
`snapshot` field and spreads the rest; `extra` stands for the fields it
never touches (absent on a freshly created entry). -/
structure MemberEntry where
  snapshot : Option MemberSnapshot
  extra : Option Nat
deriving DecidableEq, Repr

/-- Snapshot of one cast library: its number and its member map. -/
structure CastSnapshot where
  number : Nat
  members : List (Nat × MemberEntry)
deriving DecidableEq, Repr

/-- Sprite-channel snapshot; the slice writes `displayName` and spreads the
rest, `extra` stands for the fields it never touches. -/
structure ScoreSpriteSnapshot where
  displayName : Option String
  extra : Option Nat
deriving DecidableEq, Repr

/-- One subscription record: a member reference and a caller-chosen token id. -/
structure TMemberSubscription where
  memberRef : ICastMemberIdentifier
  id : String
deriving DecidableEq, Repr

/-- The whole slice state (interface VMSliceState in the source).
Optional fields of the TS interface become `Option`; `Record` fields become
association lists. -/
structure VMSliceState where
  castNames : List String
  castSnapshots : List (Nat × CastSnapshot)
  scoreSnapshot : Option ScoreSnapshot
  currentFrame : Int
  scopes : List IVMScope
  scriptError : Option String
  breakpoints : List JsBridgeBreakpoint
  globals : List (String × DatumRef)
  timeoutHandles : List (String × TimerHandle)
  datumSnapshots : List (DatumRef × JsBridgeDatum)
  scriptInstanceSnapshots : List (ScriptInstanceId × JsBridgeDatum)
  channelSnapshots : List (Nat × ScoreSpriteSnapshot)
  subscribedMemberTokens : List TMemberSubscription
  isMovieLoaded : Bool
deriving DecidableEq, Repr

/-- The initial state value of the slice. -/
def initialState : VMSliceState :=
  { castNames := []
    castSnapshots := []
    scoreSnapshot := none
    currentFrame := 1
    scopes := []
    scriptError := none
    breakpoints := []
    globals := {}
    timeoutHandles := {}
    datumSnapshots := {}
    scriptInstanceSnapshots := {}
    channelSnapshots := {}
    subscribedMemberTokens := []
    isMovieLoaded := false }

/-- JavaScript object update `{...m, [k]: v}`: replace the entry for `k` if
present, otherwise add one. -/
def recSet {α β : Type} [BEq α] : List (α × β) → α → β → List (α × β)
  | [], k, v => [(k, v)]
  | p :: rest, k, v => if p.1 == k then (k, v) :: rest else p :: recSet rest k v

/-- JavaScript `delete m[k]`: drop the entry for `k`, keep everything else. -/
def recErase {α β : Type} [BEq α] (m : List (α × β)) (k : α) : List (α × β) :=
  m.filter (fun p => !(p.1 == k))

/- ## Reducers (event ingestion) -/

/-- Reducer castListChanged: replace the cast-name list. -/
def castListChanged (s : VMSliceState) (names : List String) : VMSliceState :=
  { s with castNames := names }

/-- Reducer castMemberListChanged: replace the whole member map of one
cast-library number (creating or overwriting that library's snapshot). -/
def castMemberListChanged (s : VMSliceState) (castNumber : Nat)
    (members : List (Nat × MemberEntry)) : VMSliceState :=
  { s with castSnapshots :=
      recSet s.castSnapshots castNumber { number := castNumber, members := members } }

/-- Reducer castMemberChanged: merge one member's detailed snapshot into its
entry under (library, member-number).  In the source,
`state.castSnapshots[castLibNum].members` throws a TypeError when the
library is absent (embedded as `Except.error ()`); when the library exists
but the member entry is absent, `{...undefined, snapshot: x}` evaluates to a
fresh object holding only `snapshot`. -/
def castMemberChanged (s : VMSliceState) (memberRef : Nat × Nat)
    (snapshot : MemberSnapshot) : Except Unit VMSliceState :=
  match List.lookup memberRef.1 s.castSnapshots with
  | none => .error ()
  | some cast =>
    let newEntry : MemberEntry :=
      match List.lookup memberRef.2 cast.members with
      | none => { snapshot := some snapshot, extra := none }
      | some e => { e with snapshot := some snapshot }
    let newCast : CastSnapshot :=
      { cast with members := recSet cast.members memberRef.2 newEntry }
    .ok { s with castSnapshots := recSet s.castSnapshots memberRef.1 newCast }

/-- Reducer scoreChanged: replace the score snapshot wholesale. -/
def scoreChanged (s : VMSliceState) (score : ScoreSnapshot) : VMSliceState :=
  { s with scoreSnapshot := some score }

/-- Reducer frameChanged: replace the current-frame scalar. -/
def frameChanged (s : VMSliceState) (frame : Int) : VMSliceState :=
  { s with currentFrame := frame }

/-- Reducer scopeListChanged: replace the scope stack wholesale and reset the
datum-snapshot cache to empty. -/
def scopeListChanged (s : VMSliceState) (scopes : List IVMScope) : VMSliceState :=
  { s with scopes := scopes, datumSnapshots := [] }

/-- Reducer onScriptError: set the script error message. -/
def onScriptError (s : VMSliceState) (msg : String) : VMSliceState :=
  { s with scriptError := some msg }

/-- Reducer scriptErrorCleared: clear the script error message. -/
def scriptErrorCleared (s : VMSliceState) : VMSliceState :=
  { s with scriptError := none }

/-- Reducer breakpointListChanged: replace the breakpoint list wholesale. -/
def breakpointListChanged (s : VMSliceState) (bps : List JsBridgeBreakpoint) :
    VMSliceState :=
  { s with breakpoints := bps }

/-- Reducer globalsChanged: replace the globals mapping wholesale. -/
def globalsChanged (s : VMSliceState) (globals : List (String × DatumRef)) :
    VMSliceState :=
  { s with globals := globals }

/-- Reducer setTimeoutHandle: insert or overwrite one timer-name entry. -/
def setTimeoutHandle (s : VMSliceState) (name : String) (handle : TimerHandle) :
    VMSliceState :=
  { s with timeoutHandles := recSet s.timeoutHandles name handle }

/-- Reducer removeTimeoutHandle: delete one timer-name entry
(`delete newHandles[name]`). -/
def removeTimeoutHandle (s : VMSliceState) (name : String) : VMSliceState :=
  { s with timeoutHandles := recErase s.timeoutHandles name }

/-- Reducer datumSnapshot: insert or overwrite one value-reference entry. -/
def datumSnapshot (s : VMSliceState) (ref : DatumRef) (datum : JsBridgeDatum) :
    VMSliceState :=
  { s with datumSnapshots := recSet s.datumSnapshots ref datum }

/-- Reducer scriptInstanceSnapshot: insert or overwrite one
script-instance-id entry. -/
def scriptInstanceSnapshot (s : VMSliceState) (sid : ScriptInstanceId)
    (datum : JsBridgeDatum) : VMSliceState :=
  { s with scriptInstanceSnapshots := recSet s.scriptInstanceSnapshots sid datum }

/-- Reducer channelChanged: insert or overwrite one channel-number entry with
a full snapshot. -/
def channelChanged (s : VMSliceState) (channelNumber : Nat)
    (channelData : ScoreSpriteSnapshot) : VMSliceState :=
  { s with channelSnapshots := recSet s.channelSnapshots channelNumber channelData }

/-- Reducer channelDisplayNameChanged: merge only the display-name field into
the channel's entry.  When the channel is absent,
`{...undefined, displayName: x}` evaluates to a fresh object holding only
`displayName` (implicit creation is tolerated here). -/
def channelDisplayNameChanged (s : VMSliceState) (channelNumber : Nat)
    (displayName : String) : VMSliceState :=
  let entry : ScoreSpriteSnapshot :=
    match List.lookup channelNumber s.channelSnapshots with
    | none => { displayName := some displayName, extra := none }
    | some c => { c with displayName := some displayName }
  { s with channelSnapshots := recSet s.channelSnapshots channelNumber entry }

/-- Reducer memberSubscribed: append one subscription record. -/
def memberSubscribed (s : VMSliceState) (sub : TMemberSubscription) : VMSliceState :=
  { s with subscribedMemberTokens := s.subscribedMemberTokens ++ [sub] }

/-- Reducer memberUnsubscribed: remove every subscription record whose token
id equals the payload. -/
def memberUnsubscribed (s : VMSliceState) (tokenId : String) : VMSliceState :=
  { s with subscribedMemberTokens :=
      s.subscribedMemberTokens.filter (fun t => t.id != tokenId) }

/-- Reducer movieLoaded: set the loaded flag to true. -/
def movieLoaded (s : VMSliceState) : VMSliceState :=
  { s with isMovieLoaded := true }

/- ## Selectors (projections) -/

/-- Selector selectCastSnapshot: `state.castSnapshots[number]`
(`undefined` when absent). -/
def selectCastSnapshot (s : VMSliceState) (number : Nat) : Option CastSnapshot :=
  List.lookup number s.castSnapshots

/-- Selector selectMemberSnapshot:
`selectCastSnapshot(state, castNumber).members[String(memberNumber)]?.snapshot`.
When the cast number is absent, `selectCastSnapshot` yields `undefined` and
reading `.members` of it throws a TypeError (embedded as `Except.error ()`);
the optional chaining only guards the member step. -/
def selectMemberSnapshot (s : VMSliceState) (castNumber memberNumber : Nat) :
    Except Unit (Option MemberSnapshot) :=
  match selectCastSnapshot s castNumber with
  | none => .error ()
  | some cast => .ok ((List.lookup memberNumber cast.members).bind (·.snapshot))

/-- Selector selectMemberSnapshotById: delegate to selectMemberSnapshot. -/
def selectMemberSnapshotById (s : VMSliceState) (id : ICastMemberIdentifier) :
    Except Unit (Option MemberSnapshot) :=
  selectMemberSnapshot s id.castNumber id.memberNumber

/-- Selector selectCurrentScope: last element of the scope stack. -/
def selectCurrentScope (s : VMSliceState) : Option IVMScope :=
  s.scopes.getLast?

/-- Selector selectBreakpoints:
`state.breakpoints.filter(b => !scriptName || b.script_name === scriptName)`.
JavaScript `!scriptName` is true when the filter is `undefined` or the empty
string, so both return the whole list. -/
def selectBreakpoints (s : VMSliceState) (scriptName : Option String) :
    List JsBridgeBreakpoint :=
  s.breakpoints.filter (fun b =>
    match scriptName with
    | none => true
    | some q => (q == "") || (b.script_name == q))

/-- A member is of interest when at least one subscription record references
it (the policy of the subscription ledger, from the spec). -/
def memberOfInterest (s : VMSliceState) (m : ICastMemberIdentifier) : Bool :=
  s.subscribedMemberTokens.any (fun t => decide (t.memberRef = m))

/-- Lookup of one member entry through the cast-snapshot map. -/
def memberEntryLookup (s : VMSliceState) (lib mem : Nat) : Option MemberEntry :=
  (List.lookup lib s.castSnapshots).bind (fun c => List.lookup mem c.members)

/- ## Concrete states used by counterexamples and witnesses -/

/-- A state holding cast library 1 with an empty member map. -/
def cexStateC1 : VMSliceState :=
  { initialState with castSnapshots := [(1, { number := 1, members := [] })] }

/-- The state produced from `cexStateC1` by applying castMemberChanged for
member (1, 2) with snapshot 5. -/
def cexStateC1' : VMSliceState :=
  { initialState with castSnapshots :=
      [(1, { number := 1,
             members := [(2, { snapshot := some 5, extra := none })] })] }

/-- A state holding one breakpoint for script "foo". -/
def bpStateC4 : VMSliceState :=
  { initialState with breakpoints := [{ script_name := "foo", extra := 3 }] }

/-- A member reference used by the subscription counterexample. -/
def memC5 : ICastMemberIdentifier := { castNumber := 1, memberNumber := 1 }

/-- A state already holding a subscription record for `memC5` under the
unrelated token "c". -/
def cexStateC5 : VMSliceState :=
  { initialState with subscribedMemberTokens := [{ memberRef := memC5, id := "c" }] }

/-- A state with one cast library, one channel, one timeout handle and one
subscription, used by witnesses. -/
def witState : VMSliceState :=
  { initialState with
      castSnapshots :=
        [(1, { number := 1,
               members := [(4, { snapshot := some 9, extra := some 7 })] })]
      channelSnapshots := [(2, { displayName := some "old", extra := some 8 })]
      timeoutHandles := [("t", 11)]
      subscribedMemberTokens := [{ memberRef := memC5, id := "x" }] }

/-- The state produced by a castMemberChanged event when the library `l` is
present (with snapshot `cast`) but member `m` is absent: the member entry is
freshly created and holds only the new snapshot. -/
def castMemberCreated (s : VMSliceState) (l m : Nat) (cast : CastSnapshot)
    (snap : MemberSnapshot) : VMSliceState :=
  let newCast : CastSnapshot :=
    { cast with members := recSet cast.members m { snapshot := some snap, extra := none } }
  { s with castSnapshots := recSet s.castSnapshots l newCast }

/- ## Basic lemmas about recSet / recErase -/

theorem lookup_recSet_self {β : Type} (m : List (Nat × β)) (k : Nat) (v : β) :
    List.lookup k (recSet m k v) = some v := by
  induction m with
  | nil => simp [recSet, List.lookup]
  | cons p rest ih =>
    by_cases h : p.1 = k
    · simp [recSet, h, List.lookup]
    · have hb : (p.1 == k) = false := beq_eq_false_iff_ne.mpr h
      have hb' : (k == p.1) = false := beq_eq_false_iff_ne.mpr (fun e => h e.symm)
      simp [recSet, hb, List.lookup, hb', ih]

theorem lookup_recSet_ne {β : Type} (m : List (Nat × β)) (k k' : Nat) (v : β)
    (h : k' ≠ k) : List.lookup k' (recSet m k v) = List.lookup k' m := by
  have hkk : (k' == k) = false := beq_eq_false_iff_ne.mpr h
  induction m with
  | nil => simp [recSet, List.lookup, hkk]
  | cons p rest ih =>
    by_cases hp : p.1 = k
    · subst hp
      simp [recSet, List.lookup, hkk]
    · have hb : (p.1 == k) = false := beq_eq_false_iff_ne.mpr hp
      by_cases hq : k' = p.1
      · simp [recSet, hb, List.lookup, hq]
      · have hq' : (k' == p.1) = false := beq_eq_false_iff_ne.mpr hq
        simp [recSet, hb, List.lookup, hq', ih]

theorem lookup_none_all_ne {α β : Type} [BEq α] [LawfulBEq α]
    (m : List (α × β)) (k : α) (h : List.lookup k m = none) :
    ∀ p ∈ m, ¬ p.1 = k := by
  induction m with
  | nil => intro p hp; cases hp
  | cons q rest ih =>
    intro p hp
    rw [List.lookup] at h
    cases hqk : k == q.1 with
    | true => rw [hqk] at h; cases h
    | false =>
      rw [hqk] at h
      cases hp with
      | head =>
        intro he
        rw [he] at hqk
        simp at hqk
      | tail _ hmem => exact ih h p hmem

theorem recErase_absent {α β : Type} [BEq α] [LawfulBEq α]
    (m : List (α × β)) (k : α) (h : List.lookup k m = none) :
    recErase m k = m := by
  unfold recErase
  apply List.filter_eq_self.mpr
  intro p hp
  have hne := lookup_none_all_ne m k h p hp
  simp [beq_eq_false_iff_ne.mpr hne]

/- ## Claims -/

/-- Claim C3: for every state and every scope-list-changed event, the
resulting state has the new scope list as its scope stack and an empty
datum-snapshot cache, regardless of the prior cache contents. -/
theorem C3_scopeListChanged_invalidates (s : VMSliceState) (scopes : List IVMScope) :
    (scopeListChanged s scopes).scopes = scopes ∧
    (scopeListChanged s scopes).datumSnapshots = [] :=
  ⟨rfl, rfl⟩

/-- Claim C8: applying movie-loaded twice yields the same state as applying
it once (the loaded flag is set idempotently). -/
theorem C8_movieLoaded_idempotent (s : VMSliceState) :
    movieLoaded (movieLoaded s) = movieLoaded s :=
  rfl

/-- Claim C10: scope-list-changed leaves every state field other than the
scope stack and the datum-snapshot cache unchanged; in particular the
script-instance snapshot cache is not cleared. -/
theorem C10_scopeListChanged_frame (s : VMSliceState) (scopes : List IVMScope) :
    (scopeListChanged s scopes).castNames = s.castNames ∧
    (scopeListChanged s scopes).castSnapshots = s.castSnapshots ∧
    (scopeListChanged s scopes).scoreSnapshot = s.scoreSnapshot ∧
    (scopeListChanged s scopes).currentFrame = s.currentFrame ∧
    (scopeListChanged s scopes).scriptError = s.scriptError ∧
    (scopeListChanged s scopes).breakpoints = s.breakpoints ∧
    (scopeListChanged s scopes).globals = s.globals ∧
    (scopeListChanged s scopes).timeoutHandles = s.timeoutHandles ∧
    (scopeListChanged s scopes).scriptInstanceSnapshots = s.scriptInstanceSnapshots ∧
    (scopeListChanged s scopes).channelSnapshots = s.channelSnapshots ∧
    (scopeListChanged s scopes).subscribedMemberTokens = s.subscribedMemberTokens ∧
    (scopeListChanged s scopes).isMovieLoaded = s.isMovieLoaded :=
  ⟨rfl, rfl, rfl, rfl, rfl, rfl, rfl, rfl, rfl, rfl, rfl, rfl⟩

/-- Claim C6: a cast-member-list-changed event targeting library L leaves the
cast snapshot (and hence every member entry) of every other library
unchanged. -/
theorem C6_castMemberListChanged_isolation (s : VMSliceState) (L : Nat)
    (members : List (Nat × MemberEntry)) (L' : Nat) (h : L' ≠ L) :
    List.lookup L' (castMemberListChanged s L members).castSnapshots =
      List.lookup L' s.castSnapshots := by
  unfold castMemberListChanged
  exact lookup_recSet_ne _ _ _ _ h

/-- Witness for C6 at a concrete state and libraries 3 ≠ 1. -/
theorem C6_castMemberListChanged_isolation_witness :
    (3 : Nat) ≠ 1 ∧
    List.lookup 3 (castMemberListChanged witState 1 []).castSnapshots =
      List.lookup 3 witState.castSnapshots :=
  ⟨by decide, C6_castMemberListChanged_isolation witState 1 [] 3 (by decide)⟩

/-- Claim C7: channel-display-name-changed on an existing channel entry
replaces only that channel's displayName, keeping its other fields and every
other channel's entry unchanged. -/
theorem C7_channelDisplayNameChanged_partial_merge (s : VMSliceState) (n : Nat)
    (name : String) (c : ScoreSpriteSnapshot)
    (h : List.lookup n s.channelSnapshots = some c) :
    List.lookup n (channelDisplayNameChanged s n name).channelSnapshots =
      some { c with displayName := some name } ∧
    ∀ n', n' ≠ n →
      List.lookup n' (channelDisplayNameChanged s n name).channelSnapshots =
        List.lookup n' s.channelSnapshots := by
  constructor
  · simp [channelDisplayNameChanged, h, lookup_recSet_self]
  · intro n' hn
    simp only [channelDisplayNameChanged, h]
    exact lookup_recSet_ne _ _ _ _ hn

/-- Witness for C7: channel 2 of `witState` keeps its extra field and channel
5 stays untouched. -/
theorem C7_channelDisplayNameChanged_partial_merge_witness :
    List.lookup 2 witState.channelSnapshots =
      some { displayName := some "old", extra := some 8 } ∧
    List.lookup 2 (channelDisplayNameChanged witState 2 "X").channelSnapshots =
      some { displayName := some "X", extra := some 8 } ∧
    List.lookup 5 (channelDisplayNameChanged witState 2 "X").channelSnapshots =
      List.lookup 5 witState.channelSnapshots :=
  ⟨rfl,
   (C7_channelDisplayNameChanged_partial_merge witState 2 "X"
      { displayName := some "old", extra := some 8 } rfl).1,
   (C7_channelDisplayNameChanged_partial_merge witState 2 "X"
      { displayName := some "old", extra := some 8 } rfl).2 5 (by decide)⟩

/-- Claim C9: removing a timeout handle under an absent timer name and
unsubscribing a token id that matches no record both leave the state
unchanged. -/
theorem C9_unknown_removals_noop (s : VMSliceState) (name tok : String)
    (h1 : List.lookup name s.timeoutHandles = none)
    (h2 : ∀ t ∈ s.subscribedMemberTokens, t.id ≠ tok) :
    removeTimeoutHandle s name = s ∧ memberUnsubscribed s tok = s := by
  constructor
  · unfold removeTimeoutHandle
    rw [recErase_absent _ _ h1]
  · have hfix : s.subscribedMemberTokens.filter (fun t => t.id != tok) =
        s.subscribedMemberTokens := by
      apply List.filter_eq_self.mpr
      intro t ht
      simp [bne_iff_ne]
      exact h2 t ht
    unfold memberUnsubscribed
    rw [hfix]

/-- Witness for C9 at a concrete state with an unknown timer name and an
unknown token id. -/
theorem C9_unknown_removals_noop_witness :
    List.lookup "u" witState.timeoutHandles = none ∧
    removeTimeoutHandle witState "u" = witState ∧
    memberUnsubscribed witState "y" = witState :=
  ⟨rfl,
   (C9_unknown_removals_noop witState "u" "y" rfl (by decide)).1,
   (C9_unknown_removals_noop witState "u" "y" rfl (by decide)).2⟩

/-- Counterexample to claim C1 as stated: in `cexStateC1` library 1 exists
but member (1, 2) does not; the event is accepted (not rejected) and the
missing member entry is implicitly created, holding only the new snapshot. -/
theorem C1_castMemberChanged_cex :
    memberEntryLookup cexStateC1 1 2 = none ∧
    castMemberChanged cexStateC1 (1, 2) 5 = Except.ok cexStateC1' ∧
    memberEntryLookup cexStateC1' 1 2 = some { snapshot := some 5, extra := none } ∧
    cexStateC1' ≠ cexStateC1 := by
  refine ⟨rfl, rfl, rfl, ?_⟩
  decide

/-- Claim C1 as amended: when the cast library is absent the event throws a
TypeError (rejected, state unchanged); when the library exists but the
member entry is absent, the event is accepted and implicitly creates the
member entry, holding only the new snapshot. -/
theorem C1_castMemberChanged_missing (s : VMSliceState) (l m : Nat)
    (snap : MemberSnapshot) :
    (List.lookup l s.castSnapshots = none →
      castMemberChanged s (l, m) snap = Except.error ()) ∧
    (∀ cast, List.lookup l s.castSnapshots = some cast →
      List.lookup m cast.members = none →
      ∃ s', castMemberChanged s (l, m) snap = Except.ok s' ∧
        memberEntryLookup s' l m = some { snapshot := some snap, extra := none }) := by
  constructor
  · intro h
    simp [castMemberChanged, h]
  · intro cast h1 h2
    refine ⟨castMemberCreated s l m cast snap, ?_, ?_⟩
    · simp [castMemberChanged, castMemberCreated, h1, h2]
    · simp [castMemberCreated, memberEntryLookup, lookup_recSet_self]

/-- Witness for C1 (amended): rejection for a missing library in the initial
state, and implicit creation of member (1, 3) in `cexStateC1`. -/
theorem C1_castMemberChanged_missing_witness :
    castMemberChanged initialState (1, 2) 5 = Except.error () ∧
    ∃ s', castMemberChanged cexStateC1 (1, 3) 7 = Except.ok s' ∧
      memberEntryLookup s' 1 3 = some { snapshot := some 7, extra := none } :=
  ⟨(C1_castMemberChanged_missing initialState 1 2 5).1 rfl,
   (C1_castMemberChanged_missing cexStateC1 1 3 7).2
     { number := 1, members := [] } rfl rfl⟩

/-- Counterexample to claim C2 as stated: cast number 1 was never seen in the
initial state, yet the member projection throws a TypeError instead of
returning absent. -/
theorem C2_selectMemberSnapshot_cex :
    selectCastSnapshot initialState 1 = none ∧
    selectMemberSnapshot initialState 1 1 = Except.error () :=
  ⟨rfl, rfl⟩

/-- Claim C2 as amended: when the cast number is absent the projection throws
a TypeError; when the cast is present but the member number is absent it
returns absent without fault (and, being a pure read, creates no entry). -/
theorem C2_selectMemberSnapshot_absent (s : VMSliceState) (c m : Nat) :
    (selectCastSnapshot s c = none →
      selectMemberSnapshot s c m = Except.error ()) ∧
    (∀ cast, selectCastSnapshot s c = some cast →
      List.lookup m cast.members = none →
      selectMemberSnapshot s c m = Except.ok none) := by
  constructor
  · intro h
    simp [selectMemberSnapshot, h]
  · intro cast h1 h2
    simp [selectMemberSnapshot, h1, h2]

/-- Witness for C2 (amended): the fault at a missing cast and the absent
result at a missing member of an existing cast. -/
theorem C2_selectMemberSnapshot_absent_witness :
    selectMemberSnapshot initialState 1 1 = Except.error () ∧
    selectMemberSnapshot cexStateC1 1 2 = Except.ok none :=
  ⟨(C2_selectMemberSnapshot_absent initialState 1 1).1 rfl,
   (C2_selectMemberSnapshot_absent cexStateC1 1 2).2
     { number := 1, members := [] } rfl rfl⟩

/-- Counterexample to claim C4 as stated: with the empty string as filter the
selector returns the breakpoint for script "foo", although the subset of
breakpoints whose script name equals the empty string is empty. -/
theorem C4_selectBreakpoints_cex :
    selectBreakpoints bpStateC4 (some "") = [{ script_name := "foo", extra := 3 }] ∧
    bpStateC4.breakpoints.filter (fun b => b.script_name == "") = [] :=
  ⟨rfl, rfl⟩

/-- Claim C4 as amended: for every nonempty filter string the selector
returns exactly the breakpoints whose script name equals it; with no filter
(and likewise with the empty-string filter) it returns the full list
unchanged in order. -/
theorem C4_selectBreakpoints_filter (s : VMSliceState) (name : String)
    (h : name ≠ "") :
    selectBreakpoints s (some name) =
      s.breakpoints.filter (fun b => b.script_name == name) ∧
    selectBreakpoints s none = s.breakpoints ∧
    selectBreakpoints s (some "") = s.breakpoints := by
  have hb : (name == "") = false := beq_eq_false_iff_ne.mpr h
  refine ⟨?_, ?_, ?_⟩
  · unfold selectBreakpoints
    simp [hb]
  · unfold selectBreakpoints
    simp
  · unfold selectBreakpoints
    simp

/-- Witness for C4 (amended) at a concrete state and the filter "foo". -/
theorem C4_selectBreakpoints_filter_witness :
    ("foo" : String) ≠ "" ∧
    selectBreakpoints bpStateC4 (some "foo") =
      bpStateC4.breakpoints.filter (fun b => b.script_name == "foo") ∧
    selectBreakpoints bpStateC4 none = bpStateC4.breakpoints ∧
    selectBreakpoints bpStateC4 (some "") = bpStateC4.breakpoints :=
  ⟨by decide,
   (C4_selectBreakpoints_filter bpStateC4 "foo" (by decide)).1,
   (C4_selectBreakpoints_filter bpStateC4 "foo" (by decide)).2.1,
   (C4_selectBreakpoints_filter bpStateC4 "foo" (by decide)).2.2⟩

/-- Counterexample to claim C5 as stated: `cexStateC5` already holds a record
for the member under the unrelated token "c", so after subscribing "a" and
"b" and unsubscribing both, the member is still of interest. -/
theorem C5_subscription_cex :
    memberOfInterest
      (memberUnsubscribed
        (memberUnsubscribed
          (memberSubscribed
            (memberSubscribed cexStateC5 { memberRef := memC5, id := "a" })
            { memberRef := memC5, id := "b" })
          "a")
        "b")
      memC5 = true :=
  rfl

/-- Claim C5 as amended: starting from a state with no subscription record
for the member, subscribing it under "a" and "b" and unsubscribing "a"
leaves it of interest, and additionally unsubscribing "b" removes every
record for it. -/
theorem C5_subscription_refcount (s : VMSliceState) (m : ICastMemberIdentifier)
    (h : ∀ t ∈ s.subscribedMemberTokens, t.memberRef ≠ m) :
    memberOfInterest
      (memberUnsubscribed
        (memberSubscribed (memberSubscribed s { memberRef := m, id := "a" })
          { memberRef := m, id := "b" })
        "a")
      m = true ∧
    ∀ t ∈ (memberUnsubscribed
        (memberUnsubscribed
          (memberSubscribed (memberSubscribed s { memberRef := m, id := "a" })
            { memberRef := m, id := "b" })
          "a")
        "b").subscribedMemberTokens, t.memberRef ≠ m := by
  constructor
  · unfold memberOfInterest memberUnsubscribed memberSubscribed
    rw [List.any_eq_true]
    have hmem : ({ memberRef := m, id := "b" } : TMemberSubscription) ∈
        ((s.subscribedMemberTokens ++ [({ memberRef := m, id := "a" } : TMemberSubscription)]) ++
          [({ memberRef := m, id := "b" } : TMemberSubscription)]).filter
          (fun t => t.id != "a") := by
      rw [List.mem_filter]
      exact ⟨by simp, rfl⟩
    exact ⟨{ memberRef := m, id := "b" }, hmem, by simp⟩
  · intro t ht he
    unfold memberUnsubscribed memberSubscribed at ht
    simp only [List.mem_filter, List.mem_append, List.mem_singleton,
      bne_iff_ne] at ht
    obtain ⟨⟨(hmem | hta) | htb, hna⟩, hnb⟩ := ht
    · exact h t hmem he
    · exact hna (by rw [hta])
    · exact hnb (by rw [htb])

/-- Witness for C5 (amended) starting from the initial state, which holds no
subscription record at all. -/
theorem C5_subscription_refcount_witness :
    (∀ t ∈ initialState.subscribedMemberTokens, t.memberRef ≠ memC5) ∧
    (memberOfInterest
      (memberUnsubscribed
        (memberSubscribed (memberSubscribed initialState { memberRef := memC5, id := "a" })
          { memberRef := memC5, id := "b" })
        "a")
      memC5 = true ∧
    ∀ t ∈ (memberUnsubscribed
        (memberUnsubscribed
          (memberSubscribed (memberSubscribed initialState { memberRef := memC5, id := "a" })
            { memberRef := memC5, id := "b" })
          "a")
        "b").subscribedMemberTokens, t.memberRef ≠ memC5) :=
  ⟨by intro t ht; simp [initialState] at ht,
   C5_subscription_refcount initialState memC5
     (by intro t ht; simp [initialState] at ht)⟩

end VMSlice
